import Mathlib

/-!
Shallow embedding of the coordination core of the Lead Profiling and
Enrichment Engine: the shared key-value store (Redis/Valkey semantics for
the operations the code invokes), the distributed lock manager, the
workspace store, the job status tracker, the pipeline orchestrator, the
worker, and the jobs API handlers.

Conventions of the embedding:
* Python dicts are association lists (`Rec`) whose update operation
  (`setKey`) replaces an existing key in place and appends a new key at
  the end, exactly as Python dict assignment does.
* Time is a logical clock `now : Nat`; key expiries are absolute
  timestamps, and every store operation treats an expired key as absent
  (Redis lazy expiry).
* Non-deterministic inputs of the code (uuid4 tokens, operation ids,
  timestamps) are explicit parameters.
* `json.dumps`/`json.loads` round-trips on flat string maps are modelled
  by publishing the map itself on the channel.
-/

namespace LeadEngine

/-- A record / Python dict with string keys and values. -/
abbrev Rec := List (String × String)

/-- `d.get(k)`: first binding of `k`. -/
def lookupKey (r : Rec) (k : String) : Option String :=
  match r with
  | [] => none
  | (k', v) :: rest => if k' = k then some v else lookupKey rest k

/-- `d[k] = v`: replace in place if `k` is bound, else append (Python dict
assignment order semantics). -/
def setKey (r : Rec) (k v : String) : Rec :=
  match r with
  | [] => [(k, v)]
  | (k', v') :: rest => if k' = k then (k', v) :: rest else (k', v') :: setKey rest k v

/-- `d.update(m)` / merging a mapping into a hash, key by key in order. -/
def mergeRec (r m : Rec) : Rec :=
  m.foldl (fun acc kv => setKey acc kv.1 kv.2) r

/-- Building a fresh Python dict from a list of pairs (later pairs win). -/
def toDict (m : Rec) : Rec := mergeRec [] m

/-- A crude `json.dumps` for a flat string map; only used as an opaque
payload (never parsed back by the modelled code paths). -/
def encodeJson (r : Rec) : String :=
  "\x7b" ++ String.intercalate "," (r.map fun kv => "\"" ++ kv.1 ++ "\":\"" ++ kv.2 ++ "\"") ++ "\x7d"

/-- The shared store: hashes, plain string keys, lists, absolute-time key
expiries, and the ordered log of pub/sub messages (channel, payload). -/
structure Store where
  hashes : List (String × Rec) := []
  strs : List (String × String) := []
  lists : List (String × List String) := []
  expiries : List (String × Nat) := []
  published : List (String × Rec) := []
deriving Repr, DecidableEq

/-- The empty store. -/
def Store.empty : Store := {}

/-- Raw key existence, ignoring expiry. -/
def Store.hasKeyRaw (s : Store) (k : String) : Bool :=
  s.hashes.any (fun kv => kv.1 = k) || s.strs.any (fun kv => kv.1 = k)
    || s.lists.any (fun kv => kv.1 = k)

/-- Expiry timestamp attached to a key, if any. -/
def Store.expiryOf (s : Store) (k : String) : Option Nat :=
  (s.expiries.find? (fun kv => kv.1 = k)).map (fun kv => kv.2)

/-- A key is live at `now` if it exists and has not expired. -/
def Store.live (s : Store) (now : Nat) (k : String) : Bool :=
  s.hasKeyRaw k && (match s.expiryOf k with
    | none => true
    | some e => decide (now < e))

/-- Remove a key from every table (Redis DEL, and what lazy expiry does
to an expired key on access). -/
def Store.purge (s : Store) (k : String) : Store :=
  { s with
    hashes := s.hashes.filter (fun kv => kv.1 ≠ k)
    strs := s.strs.filter (fun kv => kv.1 ≠ k)
    lists := s.lists.filter (fun kv => kv.1 ≠ k)
    expiries := s.expiries.filter (fun kv => kv.1 ≠ k) }

/-- Drop the key first when it is not live (expired or absent), so that a
write starts from an absent key with no leftover TTL, as Redis does. -/
def Store.norm (s : Store) (now : Nat) (k : String) : Store :=
  if s.live now k then s else s.purge k

/-- HGETALL: the hash at `k`, or the empty map when absent/expired. -/
def Store.hgetall (s : Store) (now : Nat) (k : String) : Rec :=
  if s.live now k then
    ((s.hashes.find? (fun kv => kv.1 = k)).map (fun kv => kv.2)).getD []
  else []

/-- HSET with a mapping: merge into the (live) existing hash; a live key
keeps its TTL, an expired one is recreated persistent. -/
def Store.hset (s : Store) (now : Nat) (k : String) (m : Rec) : Store :=
  let old := s.hgetall now k
  let s' := s.norm now k
  { s' with hashes := (k, mergeRec old m) :: s'.hashes.filter (fun kv => kv.1 ≠ k) }

/-- GET on a string key. -/
def Store.getStr (s : Store) (now : Nat) (k : String) : Option String :=
  if s.live now k then (s.strs.find? (fun kv => kv.1 = k)).map (fun kv => kv.2)
  else none

/-- SET k v NX EX ttl: succeeds iff the key is not live, installing the
value with expiry `now + ttl`; returns `false` and leaves the store
unchanged otherwise (`redis-py` returns `None` there). -/
def Store.setNxEx (s : Store) (now : Nat) (k v : String) (ttl : Nat) : Bool × Store :=
  if s.live now k then (false, s)
  else
    let s' := s.purge k
    (true,
      { s' with
        strs := (k, v) :: s'.strs
        expiries := (k, now + ttl) :: s'.expiries })

/-- Plain SET (no options): overwrite, clearing any TTL. -/
def Store.setStr (s : Store) (_now : Nat) (k v : String) : Store :=
  let s' := s.purge k
  { s' with strs := (k, v) :: s'.strs }

/-- EXPIRE k t: attach expiry `now + t` to a live key, no-op otherwise. -/
def Store.expireKey (s : Store) (now : Nat) (k : String) (t : Nat) : Store :=
  if s.live now k then
    { s with expiries := (k, now + t) :: s.expiries.filter (fun kv => kv.1 ≠ k) }
  else s

/-- LPUSH: prepend values to the list at `k`. -/
def Store.lpush (s : Store) (now : Nat) (k : String) (vs : List String) : Store :=
  let old := if s.live now k then
      ((s.lists.find? (fun kv => kv.1 = k)).map (fun kv => kv.2)).getD []
    else []
  let s' := s.norm now k
  { s' with lists := (k, vs.reverse ++ old) :: s'.lists.filter (fun kv => kv.1 ≠ k) }

/-- PUBLISH: append the payload to the channel log (the payload is the
JSON-encoded map; the model keeps the map itself). -/
def Store.publish (s : Store) (ch : String) (payload : Rec) : Store :=
  { s with published := s.published ++ [(ch, payload)] }

/-- The Lua check-and-delete script run by `_release_lock`:
`if get(KEYS[1]) == ARGV[1] then del(KEYS[1]) return 1 else return 0`. -/
def Store.evalCheckAndDelete (s : Store) (now : Nat) (k v : String) : Nat × Store :=
  if s.getStr now k = some v then (1, s.purge k) else (0, s)

/-- `DistributedWorkspaceManager._acquire_lock`: one SET NX EX attempt of
the fresh token under `locks:resource`; `token` stands for the
`uuid.uuid4()` value generated inside the call. -/
def acquireLock (s : Store) (now : Nat) (resource token : String) (timeout : Nat) :
    Option String × Store :=
  let lockKey := "locks:" ++ resource
  let r := s.setNxEx now lockKey token timeout
  if r.1 then (some token, r.2) else (none, r.2)

/-- `DistributedWorkspaceManager._release_lock`: the atomic Lua
check-and-delete; true iff the script returned 1. -/
def releaseLock (s : Store) (now : Nat) (resource lockValue : String) : Bool × Store :=
  let lockKey := "locks:" ++ resource
  let r := s.evalCheckAndDelete now lockKey lockValue
  (r.1 = 1, r.2)

/-- The token currently holding the lock on `resource`, if a live one
exists (`locks:resource` is a single string key, so by construction at
most one holder can exist at any instant). -/
def heldLockToken (s : Store) (now : Nat) (resource : String) : Option String :=
  s.getStr now ("locks:" ++ resource)

/-- `DistributedWorkspaceManager._queue_operation`: store the operation
record under `operations:{op_id}` with a 30 s expiry and push the id onto
the processing queue. `ts` stands for `datetime.utcnow().isoformat()`. -/
def queueOperation (s : Store) (now : Nat) (opId opType wsId : String) (data : Rec)
    (ts : String) : Store :=
  let opKey := "operations:" ++ opId
  let opData : Rec :=
    [("operation_id", opId), ("operation_type", opType), ("workspace_id", wsId),
     ("data", encodeJson data), ("timestamp", ts), ("status", "pending"), ("error", "")]
  let s1 := s.hset now opKey opData
  let s2 := s1.expireKey now opKey 30
  s2.lpush now "workspace_operations_queue" [opId]

/-- The body of `_process_create_operation` once the lock is held
(the `try`/`except`/`finally` block): check for an existing record,
otherwise write and re-read, marking the operation record, and always
release the lock. -/
def processCreateBody (s : Store) (now : Nat) (wsId opId : String) (data : Rec)
    (lockValue : String) : Except String Rec × Store :=
  let workspaceKey := "workspaces:" ++ wsId ++ ":keys"
  let lockName := "workspace_create:" ++ wsId
  let opKey := "operations:" ++ opId
  let existing := s.hgetall now workspaceKey
  if existing ≠ [] then
    -- Workspace already exists: return the existing data with the id added.
    let res := setKey existing "id" wsId
    let r := releaseLock s now lockName lockValue
    (.ok res, r.2)
  else
    let s1 := s.hset now workspaceKey data
    let stored := s1.hgetall now workspaceKey
    if stored = [] then
      -- Verification failed (with `redis-py`, `hset` on an empty mapping
      -- already raises before writing; either way the call errors out):
      -- the `except` branch marks the operation failed and re-raises,
      -- and the `finally` branch releases the lock.
      let s2 := s1.hset now opKey [("status", "failed")]
      let s3 := s2.hset now opKey [("error", "Workspace data not found after storage")]
      let r := releaseLock s3 now lockName lockValue
      (.error "Workspace data not found after storage", r.2)
    else
      let s2 := s1.hset now opKey [("status", "completed")]
      let res := setKey stored "id" wsId
      let r := releaseLock s2 now lockName lockValue
      (.ok res, r.2)

/-- `DistributedWorkspaceManager._process_create_operation`: acquire the
lock `workspace_create:{id}` (one bounded sleep-and-retry on failure; the
retry's fresh uuid is `tokB`), then run the guarded body. -/
def processCreateOperation (s : Store) (now : Nat) (wsId opId : String) (data : Rec)
    (tokA tokB : String) : Except String Rec × Store :=
  let lockName := "workspace_create:" ++ wsId
  let a1 := acquireLock s now lockName tokA 10
  match a1.1 with
  | some lv => processCreateBody a1.2 now wsId opId data lv
  | none =>
    let a2 := acquireLock a1.2 now lockName tokB 10
    match a2.1 with
    | some lv => processCreateBody a2.2 now wsId opId data lv
    | none => (.error ("Could not acquire lock for workspace " ++ wsId), a2.2)

/-- `DistributedWorkspaceManager.create_workspace_distributed`: queue the
operation record, then process the create under the lock. -/
def createWorkspaceDistributed (s : Store) (now : Nat) (wsId : String) (data : Rec)
    (opId ts tokA tokB : String) : Except String Rec × Store :=
  let s0 := queueOperation s now opId "create" wsId data ts
  processCreateOperation s0 now wsId opId data tokA tokB

/-- `DistributedWorkspaceManager.get_workspace_distributed`: unlocked
read of the workspace hash; not-found error when it is empty. -/
def getWorkspaceDistributed (s : Store) (now : Nat) (wsId : String) : Except String Rec :=
  let workspaceKey := "workspaces:" ++ wsId ++ ":keys"
  let data := s.hgetall now workspaceKey
  if data = [] then .error ("Workspace " ++ wsId ++ " not found")
  else .ok (setKey data "id" wsId)

/-- `set_job_status` in `backend/core/valkey.py`: build the mapping
(progress only when given, error only when truthy, i.e. non-empty), HSET
it into `jobs:{id}`, and best-effort publish it on `jobs:{id}:events`. -/
def setJobStatus (s : Store) (now : Nat) (jobId status : String)
    (progress : Option String) (error : Option String) : Store :=
  let mapping : Rec :=
    [("status", status)]
      ++ (match progress with | some p => [("progress", p)] | none => [])
      ++ (match error with
          | some e => if e ≠ "" then [("error", e)] else []
          | none => [])
  let s1 := s.hset now ("jobs:" ++ jobId) mapping
  s1.publish ("jobs:" ++ jobId ++ ":events") mapping

/-- Outcome of one opaque pipeline stage (miner / validator /
synthesizer): its returned record, or the message of the raised error. -/
inductive StageOutcome where
  | ok (out : Rec)
  | fail (msg : String)
deriving Repr, DecidableEq

/-- `AgentPipeline.run`: advance job status around the three stages,
store the synthesized lead record on success, and on any stage error set
the job to `failed` with the stage's message, then re-raise wrapped.
`freshLeadId` stands for the `uuid.uuid4()` used when the lead has no id,
`createdAt` for the `str(uuid.uuid4())` written as `created_at`. -/
def pipelineRun (s : Store) (now : Nat) (lead : Rec) (jobId : Option String)
    (mineO valO synO : StageOutcome) (freshLeadId createdAt : String) :
    Except String Rec × Store :=
  let onJob (s' : Store) (f : String → Store) : Store :=
    match jobId with | some j => f j | none => s'
  let failWith (s' : Store) (m : String) : Except String Rec × Store :=
    let s'' := onJob s' (fun j => setJobStatus s' now j "failed" none (some m))
    (.error ("Pipeline failed for lead " ++ ((lookupKey lead "id").getD "unknown") ++ ": " ++ m), s'')
  let s1 := onJob s (fun j => setJobStatus s now j "mining" (some "0.1") none)
  match mineO with
  | .fail m => failWith s1 m
  | .ok _mined =>
    let s2 := onJob s1 (fun j => setJobStatus s1 now j "validating" (some "0.4") none)
    match valO with
    | .fail m => failWith s2 m
    | .ok _validated =>
      let s3 := onJob s2 (fun j => setJobStatus s2 now j "synthesizing" (some "0.7") none)
      match synO with
      | .fail m => failWith s3 m
      | .ok synthesized =>
        -- lead.get("id") or uuid4(): Python `or` also rejects "".
        let leadId := match lookupKey lead "id" with
          | some i => if i = "" then freshLeadId else i
          | none => freshLeadId
        let resultData :=
          mergeRec
            [("id", leadId), ("company", (lookupKey lead "company").getD "Unknown"),
             ("created_at", createdAt)]
            synthesized
        let s4 := s3.hset now ("leads:" ++ leadId) resultData
        match jobId with
        | some j =>
          let s5 := s4.lpush now ("jobs:" ++ j ++ ":leads") [leadId]
          let s6 := setJobStatus s5 now j "completed" (some "1.0") none
          (.ok (mergeRec [("id", leadId)] synthesized), s6)
        | none => (.ok (mergeRec [("id", leadId)] synthesized), s4)

/-- `process_lead` in `backend/worker.py`: bracket the pipeline with
`processing` statuses, and on success write the final `completed` status
and a JSON copy of the result under a plain `leads:*` string key; on
failure set `failed` with the (wrapped) error text and re-raise. -/
def processLead (s : Store) (now : Nat) (lead : Rec) (jobId : Option String)
    (mineO valO synO : StageOutcome) (freshLeadId createdAt : String) :
    Except String Rec × Store :=
  let onJob (s' : Store) (f : String → Store) : Store :=
    match jobId with | some j => f j | none => s'
  let s1 := onJob s (fun j => setJobStatus s now j "processing" (some "0.1") none)
  let s2 := onJob s1 (fun j => setJobStatus s1 now j "processing" (some "0.3") none)
  match pipelineRun s2 now lead jobId mineO valO synO freshLeadId createdAt with
  | (.error m, s3) =>
    let s4 := onJob s3 (fun j => setJobStatus s3 now j "failed" none (some m))
    (.error m, s4)
  | (.ok result, s3) =>
    match jobId with
    | some j =>
      let s4 := setJobStatus s3 now j "completed" (some "1.0") none
      let s5 := s4.setStr now ("leads:" ++ ((lookupKey lead "id").getD "unknown")) (encodeJson result)
      (.ok result, s5)
    | none => (.ok result, s3)

/-- The `for lead in leads: process_lead(...)` inline-processing loop of
the `enqueue` handler; an exception from `process_lead` propagates and
aborts the loop. `runner` is the per-lead call. -/
def runLeads (runner : Store → Rec → Except String Rec × Store) :
    Store → List Rec → Except (String × Store) Store
  | s, [] => .ok s
  | s, l :: rest =>
    match runner s l with
    | (.ok _, s') => runLeads runner s' rest
    | (.error m, s') => .error (m, s')

/-- `enqueue` in `backend/api/jobs.py`: reject an empty lead list with
HTTP 400 before anything else; then look up the workspace, write the
`queued` status and the job hash, and process each lead (inline path;
`jobs.py` imports a `get_workspace` name that `backend.api.workspaces`
does not define — the lookup is modelled by the workspace read the
workspace API performs). `jobId` stands for the generated uuid4. On
success the handler returns the job id; an uncaught exception surfaces
as HTTP 500. -/
def enqueue (runner : Store → Rec → Except String Rec × Store) (s : Store) (now : Nat)
    (leads : List Rec) (workspaceId jobId : String) :
    Except (Nat × String) String × Store :=
  if leads.isEmpty then (.error (400, "No leads provided"), s)
  else
    match getWorkspaceDistributed s now workspaceId with
    | .error m => (.error (500, m), s)
    | .ok workspace =>
      let s1 := setJobStatus s now jobId "queued" (some "0.0") none
      let s2 := s1.hset now ("jobs:" ++ jobId)
        [("workspace_id", workspaceId), ("provider", (lookupKey workspace "provider").getD "")]
      match runLeads runner s2 leads with
      | .ok s3 => (.ok jobId, s3)
      | .error (m, s3) => (.error (500, m), s3)

/-- The terminal-status test of the `stream` handler:
`status in ("complete", "failed")`. -/
def isTerminalStatus (st : Option String) : Bool :=
  st = some "complete" || st = some "failed"

/-- The `while True` body of the `stream` handler applied to a finite log
of channel messages: forward each message, stopping at the first one
whose status is terminal. Returns the forwarded events and whether the
loop exited; the code has no iteration or time budget, so with no
terminal message in the log the loop is still polling after the whole
log is consumed. -/
def streamForward : List Rec → List Rec × Bool
  | [] => ([], false)
  | m :: rest =>
    if isTerminalStatus (lookupKey m "status") then ([m], true)
    else
      let r := streamForward rest
      (m :: r.1, r.2)

/-- The `stream` handler's event generator: first emit the persisted job
state (returning at once when it is already terminal), then run the
message loop over the channel log. -/
def streamEvents (s : Store) (now : Nat) (jobId : String) (msgs : List Rec) :
    List Rec × Bool :=
  let data := s.hgetall now ("jobs:" ++ jobId)
  if data ≠ [] then
    if isTerminalStatus (lookupKey data "status") then ([data], true)
    else
      let r := streamForward msgs
      (data :: r.1, r.2)
  else streamForward msgs

/-- The messages published on a channel, in publication order. -/
def channelLog (s : Store) (ch : String) : List Rec :=
  (s.published.filter (fun p => p.1 = ch)).map (fun p => p.2)

/-- The statuses carried by the messages published on a job's event
channel, in order — what a streaming subscriber observes. -/
def publishedStatuses (s : Store) (jobId : String) : List String :=
  (channelLog s ("jobs:" ++ jobId ++ ":events")).map
    (fun m => (lookupKey m "status").getD "")

/-- The status enumeration of the claim:
`queued < mining < validating < synthesizing < (complete | failed)`. -/
def claimStatusEnum : List String :=
  ["queued", "mining", "validating", "synthesizing", "complete", "failed"]

/-- Rank of the statuses the worker and pipeline actually write, in their
forward order (`completed`/`failed` both terminal). -/
def writtenStatusRank : String → Nat
  | "queued" => 0
  | "processing" => 1
  | "mining" => 2
  | "validating" => 3
  | "synthesizing" => 4
  | "completed" => 5
  | "failed" => 5
  | _ => 6

/-- The statuses the worker and pipeline actually write. -/
def writtenStatusEnum : List String :=
  ["queued", "processing", "mining", "validating", "synthesizing", "completed", "failed"]

/-- A list of statuses is non-decreasing under a rank function. -/
def nondecreasingBy (rank : String → Nat) : List String → Bool
  | [] => true
  | [_] => true
  | a :: b :: rest => rank a ≤ rank b && nondecreasingBy rank (b :: rest)

/-- The in-memory fallback client of `backend/core/valkey.py`:
`store` is its `Dict[str, Dict[str, str]]`, with plain SET storing under
the reserved `"value"` field exactly as the Python class does. -/
structure FakeValkey where
  store : List (String × Rec) := []
  lists : List (String × List String) := []
  channels : List (String × List String) := []
deriving Repr, DecidableEq

/-- `FakeValkey.hset`: merge the mapping into `store[name]`
(`setdefault` creates the entry even for an empty mapping). -/
def FakeValkey.hset (fv : FakeValkey) (name : String) (mapping : Rec) : FakeValkey :=
  let old := ((fv.store.find? (fun kv => kv.1 = name)).map (fun kv => kv.2)).getD []
  { fv with store := (name, mergeRec old mapping) :: fv.store.filter (fun kv => kv.1 ≠ name) }

/-- `FakeValkey.hgetall`: a copy of `store[name]`, or the empty dict. -/
def FakeValkey.hgetall (fv : FakeValkey) (name : String) : Rec :=
  ((fv.store.find? (fun kv => kv.1 = name)).map (fun kv => kv.2)).getD []

/-- `FakeValkey.keys`: `"*"`, a trailing-star prefix pattern, or an exact
match — the only patterns the class implements. -/
def FakeValkey.keysPat (fv : FakeValkey) (pat : String) : List String :=
  if pat = "*" then fv.store.map (fun kv => kv.1)
  else if pat.endsWith "*" then
    let pre := pat.dropRight 1
    (fv.store.map (fun kv => kv.1)).filter (fun k => k.startsWith pre)
  else (fv.store.map (fun kv => kv.1)).filter (fun k => k = pat)

/-- `FakeValkey.set(name, value)`: store under the `"value"` field. The
Python signature takes no other arguments. -/
def FakeValkey.setPlain (fv : FakeValkey) (name value : String) : FakeValkey :=
  { fv with store := (name, [("value", value)]) :: fv.store.filter (fun kv => kv.1 ≠ name) }

/-- `FakeValkey.get`. -/
def FakeValkey.getPlain (fv : FakeValkey) (name : String) : Option String :=
  lookupKey (((fv.store.find? (fun kv => kv.1 = name)).map (fun kv => kv.2)).getD []) "value"

/-- `FakeValkey.publish`: append to the channel's message list. -/
def FakeValkey.publishMsg (fv : FakeValkey) (channel message : String) : FakeValkey :=
  let old := ((fv.channels.find? (fun kv => kv.1 = channel)).map (fun kv => kv.2)).getD []
  { fv with channels := (channel, old ++ [message]) :: fv.channels.filter (fun kv => kv.1 ≠ channel) }

/-- `_FakePubSub.get_message` for a subscriber of `channel`: pop the first
queued message, or `none`. -/
def FakeValkey.getMessage (fv : FakeValkey) (channel : String) :
    Option String × FakeValkey :=
  let old := ((fv.channels.find? (fun kv => kv.1 = channel)).map (fun kv => kv.2)).getD []
  match old with
  | [] => (none, fv)
  | m :: rest =>
    (some m, { fv with channels := (channel, rest) :: fv.channels.filter (fun kv => kv.1 ≠ channel) })

/-- Invoking `client.set(key, value, nx=True, ex=timeout)` on a
`FakeValkey` instance: the Python method is `set(self, name, value)`, so
the call raises `TypeError` before anything executes. -/
def FakeValkey.setNxEx (_fv : FakeValkey) (_k _v : String) (_ttl : Nat) :
    Except String (Option Bool) :=
  .error "TypeError: FakeValkey.set got an unexpected keyword argument nx"

/-- Invoking `client.eval(script, 1, key, value)` on a `FakeValkey`
instance: the class defines no such attribute, so the call raises
`AttributeError`. -/
def FakeValkey.evalScript (_fv : FakeValkey) (_script : String) (_k _v : String) :
    Except String Nat :=
  .error "AttributeError: FakeValkey object has no attribute eval"

/-- `_acquire_lock` running against the FakeValkey fallback: the
SET NX EX call raises instead of returning a token. -/
def acquireLockFake (fv : FakeValkey) (resource token : String) (timeout : Nat) :
    Except String (Option String) :=
  match fv.setNxEx ("locks:" ++ resource) token timeout with
  | .error m => .error m
  | .ok r => .ok (if r = some true then some token else none)

/-- `_release_lock` running against the FakeValkey fallback: the `eval`
call raises instead of running the check-and-delete script. -/
def releaseLockFake (fv : FakeValkey) (resource lockValue : String) :
    Except String Bool :=
  match fv.evalScript "check-and-delete" ("locks:" ++ resource) lockValue with
  | .error m => .error m
  | .ok r => .ok (r = 1)

/-- The posture decision of `get_client` once the connection ping has
failed: on Render (`RENDER_SERVICE_ID` set) re-raise; otherwise fall back
to a fresh `FakeValkey`. -/
inductive ClientChoice where
  | fake (fv : FakeValkey)
  | fatal (msg : String)
deriving Repr, DecidableEq

/-- `get_client` failure branch. -/
def getClientOnFailure (onRender : Bool) (errMsg : String) : ClientChoice :=
  if onRender then .fatal ("Valkey connection required in production: " ++ errMsg)
  else .fake {}


/-- A fully successful concrete run of `process_lead` (all three stages
return records) for job `job-1` from the empty store. -/
def demoSuccessRun : Except String Rec × Store :=
  processLead Store.empty 0 [("company", "Acme Corp")] (some "job-1")
    (.ok [("signals", "found")]) (.ok [("score", "0.9")]) (.ok [("pitch", "buy")])
    "lead-1" "created-1"

/-- A concrete run of `process_lead` for job `job-1` whose synthesis
stage raises with message `m`, the other stages succeeding. -/
def synthFailRun (m : String) (mined validated : Rec) : Except String Rec × Store :=
  processLead Store.empty 0 [("company", "Acme Corp")] (some "job-1")
    (.ok mined) (.ok validated) (.fail m) "lead-1" "created-1"

/-- A job enqueued with two leads, driven through `enqueue` as the spec's
end-to-end scenario is: the handler runs `process_lead` once per lead
with the same job id; every stage succeeds for both leads. The store is
seeded with the workspace record the handler looks up. -/
def twoLeadRun : Except (Nat × String) String × Store :=
  enqueue
    (fun st lead => processLead st 0 lead (some "job-1")
      (.ok [("signals", "found")]) (.ok [("score", "0.9")]) (.ok [("pitch", "buy")])
      "lead-1" "created-1")
    (Store.empty.hset 0 ("workspaces:" ++ "w1" ++ ":keys") [("provider", "openai")])
    0 [[("company", "Acme Corp")], [("company", "Beta LLC")]] "w1" "job-1"

/-!
### Frame and evaluation lemmas

Read-after-write facts about the store model: each write operation
changes only its own key, acquisition/release of a free/held lock
evaluates to explicit stores, and `create_workspace_distributed`
evaluates under a free lock. These drive the claim proofs below.
-/

theorem filterPred_eq {α : Type} (k k' : String) (hne : k' ≠ k) :
    (fun a : String × α => !decide (a.1 = k) && decide (a.1 = k'))
      = (fun kv : String × α => decide (kv.1 = k')) := by
  funext a
  by_cases h : a.1 = k'
  · have h2 : ¬ a.1 = k := fun hh => hne (h.symm.trans hh)
    simp [h, h2, hne]
  · simp [h]

theorem filterPred_self {α : Type} (k : String) :
    (fun a : String × α => !decide (a.1 = k) && decide (a.1 = k))
      = (fun _ : String × α => false) := by
  funext a
  by_cases h : a.1 = k <;> simp [h]

theorem find?_false {α : Type} (l : List α) : l.find? (fun _ => false) = none := by
  induction l with
  | nil => rfl
  | cons hd tl ih => simp [List.find?, ih]

theorem hasKeyRaw_purge_ne (s : Store) (k k' : String) (hne : k' ≠ k) :
    (s.purge k).hasKeyRaw k' = s.hasKeyRaw k' := by
  simp [Store.purge, Store.hasKeyRaw, filterPred_eq k k' hne]

theorem hasKeyRaw_purge_self (s : Store) (k : String) :
    (s.purge k).hasKeyRaw k = false := by
  simp [Store.purge, Store.hasKeyRaw, filterPred_self k]

theorem expiryOf_purge_ne (s : Store) (k k' : String) (hne : k' ≠ k) :
    (s.purge k).expiryOf k' = s.expiryOf k' := by
  simp [Store.purge, Store.expiryOf, filterPred_eq k k' hne]

theorem expiryOf_purge_self (s : Store) (k : String) :
    (s.purge k).expiryOf k = none := by
  simp [Store.purge, Store.expiryOf, filterPred_self k, find?_false]

theorem live_purge_ne (s : Store) (now : Nat) (k k' : String) (hne : k' ≠ k) :
    (s.purge k).live now k' = s.live now k' := by
  simp [Store.live, hasKeyRaw_purge_ne _ _ _ hne, expiryOf_purge_ne _ _ _ hne]

theorem live_purge_self (s : Store) (now : Nat) (k : String) :
    (s.purge k).live now k = false := by
  simp [Store.live, hasKeyRaw_purge_self]

theorem hgetall_purge_ne (s : Store) (now : Nat) (k k' : String) (hne : k' ≠ k) :
    (s.purge k).hgetall now k' = s.hgetall now k' := by
  rw [Store.hgetall, Store.hgetall, live_purge_ne _ _ _ _ hne]
  simp [Store.purge, filterPred_eq k k' hne]

theorem getStr_purge_ne (s : Store) (now : Nat) (k k' : String) (hne : k' ≠ k) :
    (s.purge k).getStr now k' = s.getStr now k' := by
  rw [Store.getStr, Store.getStr, live_purge_ne _ _ _ _ hne]
  simp [Store.purge, filterPred_eq k k' hne]

theorem live_norm_ne (s : Store) (now t : Nat) (k k' : String) (hne : k' ≠ k) :
    (s.norm now k).live t k' = s.live t k' := by
  unfold Store.norm
  split
  · rfl
  · exact live_purge_ne _ _ _ _ hne

theorem hgetall_norm_ne (s : Store) (now t : Nat) (k k' : String) (hne : k' ≠ k) :
    (s.norm now k).hgetall t k' = s.hgetall t k' := by
  unfold Store.norm
  split
  · rfl
  · exact hgetall_purge_ne _ _ _ _ hne

theorem getStr_norm_ne (s : Store) (now t : Nat) (k k' : String) (hne : k' ≠ k) :
    (s.norm now k).getStr t k' = s.getStr t k' := by
  unfold Store.norm
  split
  · rfl
  · exact getStr_purge_ne _ _ _ _ hne

theorem expiryOf_norm_live (s : Store) (now : Nat) (k : String) :
    (s.norm now k).live now k = s.live now k ∧
      (s.live now k = false → (s.norm now k).expiryOf k = none) := by
  unfold Store.norm
  by_cases h : s.live now k = true
  · simp [h]
  · have h' : s.live now k = false := by simpa using h
    simp [h', live_purge_self, expiryOf_purge_self]

theorem live_hset_ne (s : Store) (now t : Nat) (k k' : String) (m : Rec) (hne : k' ≠ k) :
    (s.hset now k m).live t k' = s.live t k' := by
  rw [← live_norm_ne s now t k k' hne]
  simp [Store.hset, Store.live, Store.hasKeyRaw, Store.expiryOf, Ne.symm hne,
    filterPred_eq k k' hne]

theorem hgetall_hset_ne (s : Store) (now t : Nat) (k k' : String) (m : Rec) (hne : k' ≠ k) :
    (s.hset now k m).hgetall t k' = s.hgetall t k' := by
  rw [← hgetall_norm_ne s now t k k' hne]
  rw [Store.hgetall, Store.hgetall,
    show (s.hset now k m).live t k' = (s.norm now k).live t k' by
      rw [live_norm_ne s now t k k' hne]; exact live_hset_ne s now t k k' m hne]
  simp [Store.hset, Ne.symm hne, filterPred_eq k k' hne]

theorem getStr_hset_ne (s : Store) (now t : Nat) (k k' : String) (m : Rec) (hne : k' ≠ k) :
    (s.hset now k m).getStr t k' = s.getStr t k' := by
  rw [← getStr_norm_ne s now t k k' hne]
  rw [Store.getStr, Store.getStr,
    show (s.hset now k m).live t k' = (s.norm now k).live t k' by
      rw [live_norm_ne s now t k k' hne]; exact live_hset_ne s now t k k' m hne]
  simp [Store.hset]

theorem live_hset_self (s : Store) (now : Nat) (k : String) (m : Rec) :
    (s.hset now k m).live now k = true := by
  have h1 : (s.hset now k m).hasKeyRaw k = true := by
    simp [Store.hset, Store.hasKeyRaw]
  have h2 : (s.hset now k m).expiryOf k = (s.norm now k).expiryOf k := by
    simp [Store.hset, Store.expiryOf]
  rw [Store.live, Bool.and_eq_true]
  refine ⟨h1, ?_⟩
  rw [h2]
  by_cases h : s.live now k = true
  · have hexp : (s.norm now k).expiryOf k = s.expiryOf k := by
      unfold Store.norm; simp [h]
    rw [hexp]
    have hb := h
    rw [Store.live, Bool.and_eq_true] at hb
    exact hb.2
  · have h' : s.live now k = false := by simpa using h
    rw [(expiryOf_norm_live s now k).2 h']

theorem hgetall_hset_self (s : Store) (now : Nat) (k : String) (m : Rec) :
    (s.hset now k m).hgetall now k = mergeRec (s.hgetall now k) m := by
  rw [Store.hgetall, live_hset_self]
  simp [Store.hset]

theorem hashes_expireKey (s : Store) (now u : Nat) (k : String) :
    (s.expireKey now k u).hashes = s.hashes := by
  unfold Store.expireKey
  split <;> rfl

theorem strs_expireKey (s : Store) (now u : Nat) (k : String) :
    (s.expireKey now k u).strs = s.strs := by
  unfold Store.expireKey
  split <;> rfl

theorem hasKeyRaw_expireKey (s : Store) (now u : Nat) (k k2 : String) :
    (s.expireKey now k u).hasKeyRaw k2 = s.hasKeyRaw k2 := by
  unfold Store.expireKey
  split <;> rfl

theorem find?_key_cons_ne {α : Type} (x : α) (l : List (String × α)) (k k' : String)
    (hne : k' ≠ k) :
    List.find? (fun kv => kv.1 = k') ((k, x) :: l) = List.find? (fun kv => kv.1 = k') l := by
  rw [List.find?_cons_of_neg]
  simp [Ne.symm hne]

theorem find?_filter_ne {α : Type} (l : List (String × α)) (k k' : String) (hne : k' ≠ k) :
    (l.filter (fun kv => kv.1 ≠ k)).find? (fun kv => kv.1 = k')
      = l.find? (fun kv => kv.1 = k') := by
  simp [filterPred_eq k k' hne]

theorem expiryOf_expireKey_ne (s : Store) (now u : Nat) (k k' : String) (hne : k' ≠ k) :
    (s.expireKey now k u).expiryOf k' = s.expiryOf k' := by
  unfold Store.expireKey
  split
  · rw [Store.expiryOf, Store.expiryOf]
    show (Option.map (fun kv => kv.2) (List.find? (fun kv => kv.1 = k')
        ((k, now + u) :: s.expiries.filter (fun kv => kv.1 ≠ k)))) = _
    rw [find?_key_cons_ne _ _ _ _ hne, find?_filter_ne _ _ _ hne]
  · rfl

theorem live_expireKey_ne (s : Store) (now t u : Nat) (k k' : String) (hne : k' ≠ k) :
    (s.expireKey now k u).live t k' = s.live t k' := by
  rw [Store.live, Store.live, expiryOf_expireKey_ne _ _ _ _ _ hne, hasKeyRaw_expireKey]

theorem hgetall_expireKey_ne (s : Store) (now t u : Nat) (k k' : String) (hne : k' ≠ k) :
    (s.expireKey now k u).hgetall t k' = s.hgetall t k' := by
  rw [Store.hgetall, Store.hgetall, live_expireKey_ne _ _ _ _ _ _ hne, hashes_expireKey]

theorem getStr_expireKey_ne (s : Store) (now t u : Nat) (k k' : String) (hne : k' ≠ k) :
    (s.expireKey now k u).getStr t k' = s.getStr t k' := by
  rw [Store.getStr, Store.getStr, live_expireKey_ne _ _ _ _ _ _ hne, strs_expireKey]

theorem live_lpush_ne (s : Store) (now t : Nat) (k k' : String) (vs : List String)
    (hne : k' ≠ k) : (s.lpush now k vs).live t k' = s.live t k' := by
  rw [← live_norm_ne s now t k k' hne]
  simp [Store.lpush, Store.live, Store.hasKeyRaw, Store.expiryOf, Ne.symm hne,
    filterPred_eq k k' hne]

theorem hgetall_lpush_ne (s : Store) (now t : Nat) (k k' : String) (vs : List String)
    (hne : k' ≠ k) : (s.lpush now k vs).hgetall t k' = s.hgetall t k' := by
  rw [← hgetall_norm_ne s now t k k' hne]
  rw [Store.hgetall, Store.hgetall,
    show (s.lpush now k vs).live t k' = (s.norm now k).live t k' by
      rw [live_norm_ne s now t k k' hne]; exact live_lpush_ne s now t k k' vs hne]
  simp [Store.lpush]

theorem getStr_lpush_ne (s : Store) (now t : Nat) (k k' : String) (vs : List String)
    (hne : k' ≠ k) : (s.lpush now k vs).getStr t k' = s.getStr t k' := by
  rw [← getStr_norm_ne s now t k k' hne]
  rw [Store.getStr, Store.getStr,
    show (s.lpush now k vs).live t k' = (s.norm now k).live t k' by
      rw [live_norm_ne s now t k k' hne]; exact live_lpush_ne s now t k k' vs hne]
  simp [Store.lpush]

theorem live_publish (s : Store) (t : Nat) (ch : String) (p : Rec) (k : String) :
    (s.publish ch p).live t k = s.live t k := rfl

theorem hgetall_publish (s : Store) (t : Nat) (ch : String) (p : Rec) (k : String) :
    (s.publish ch p).hgetall t k = s.hgetall t k := rfl

theorem getStr_publish (s : Store) (t : Nat) (ch : String) (p : Rec) (k : String) :
    (s.publish ch p).getStr t k = s.getStr t k := rfl

theorem setNxEx_of_not_live (s : Store) (now : Nat) (k v : String) (ttl : Nat)
    (h : s.live now k = false) :
    s.setNxEx now k v ttl
      = (true, { s.purge k with
          strs := (k, v) :: (s.purge k).strs
          expiries := (k, now + ttl) :: (s.purge k).expiries }) := by
  simp [Store.setNxEx, h]

theorem acquireLock_of_free (s : Store) (now : Nat) (R tok : String) (ttl : Nat)
    (h : s.live now ("locks:" ++ R) = false) :
    acquireLock s now R tok ttl
      = (some tok, { s.purge ("locks:" ++ R) with
          strs := ("locks:" ++ R, tok) :: (s.purge ("locks:" ++ R)).strs
          expiries := ("locks:" ++ R, now + ttl) :: (s.purge ("locks:" ++ R)).expiries }) := by
  simp [acquireLock, setNxEx_of_not_live s now _ tok ttl h]

theorem acquireLock_of_held (s : Store) (now : Nat) (R tok : String) (ttl : Nat)
    (h : s.live now ("locks:" ++ R) = true) :
    acquireLock s now R tok ttl = (none, s) := by
  simp [acquireLock, Store.setNxEx, h]

theorem any_key_cons_ne {α : Type} (x : α) (l : List (String × α)) (k k' : String)
    (hne : k' ≠ k) :
    ((k, x) :: l).any (fun kv => kv.1 = k') = l.any (fun kv => kv.1 = k') := by
  simp [List.any_cons, Ne.symm hne]

theorem releaseLock_of_owner (s : Store) (now : Nat) (R tok : String)
    (h : s.getStr now ("locks:" ++ R) = some tok) :
    releaseLock s now R tok = (true, s.purge ("locks:" ++ R)) := by
  simp [releaseLock, Store.evalCheckAndDelete, h]

theorem hasKeyRaw_acquired_ne (s : Store) (now : Nat) (R tok : String) (ttl : Nat)
    (k' : String) (hfree : s.live now ("locks:" ++ R) = false)
    (hne : k' ≠ "locks:" ++ R) :
    ((acquireLock s now R tok ttl).2).hasKeyRaw k' = s.hasKeyRaw k' := by
  rw [acquireLock_of_free s now R tok ttl hfree]
  rw [← hasKeyRaw_purge_ne s ("locks:" ++ R) k' hne]
  rw [Store.hasKeyRaw, Store.hasKeyRaw]
  rw [show (({ s.purge ("locks:" ++ R) with
      strs := ("locks:" ++ R, tok) :: (s.purge ("locks:" ++ R)).strs
      expiries := ("locks:" ++ R, now + ttl) :: (s.purge ("locks:" ++ R)).expiries } : Store)).strs
        = ("locks:" ++ R, tok) :: (s.purge ("locks:" ++ R)).strs from rfl]
  rw [any_key_cons_ne _ _ _ _ hne]

theorem expiryOf_acquired_ne (s : Store) (now : Nat) (R tok : String) (ttl : Nat)
    (k' : String) (hfree : s.live now ("locks:" ++ R) = false)
    (hne : k' ≠ "locks:" ++ R) :
    ((acquireLock s now R tok ttl).2).expiryOf k' = s.expiryOf k' := by
  rw [acquireLock_of_free s now R tok ttl hfree]
  rw [← expiryOf_purge_ne s ("locks:" ++ R) k' hne]
  rw [Store.expiryOf, Store.expiryOf]
  rw [show (({ s.purge ("locks:" ++ R) with
      strs := ("locks:" ++ R, tok) :: (s.purge ("locks:" ++ R)).strs
      expiries := ("locks:" ++ R, now + ttl) :: (s.purge ("locks:" ++ R)).expiries } : Store)).expiries
        = ("locks:" ++ R, now + ttl) :: (s.purge ("locks:" ++ R)).expiries from rfl]
  rw [find?_key_cons_ne _ _ _ _ hne]

theorem live_acquired_ne (s : Store) (now t : Nat) (R tok : String) (ttl : Nat)
    (k' : String) (hfree : s.live now ("locks:" ++ R) = false)
    (hne : k' ≠ "locks:" ++ R) :
    ((acquireLock s now R tok ttl).2).live t k' = s.live t k' := by
  rw [Store.live, Store.live, hasKeyRaw_acquired_ne s now R tok ttl k' hfree hne,
    expiryOf_acquired_ne s now R tok ttl k' hfree hne]

theorem hgetall_acquired_ne (s : Store) (now t : Nat) (R tok : String) (ttl : Nat)
    (k' : String) (hfree : s.live now ("locks:" ++ R) = false)
    (hne : k' ≠ "locks:" ++ R) :
    ((acquireLock s now R tok ttl).2).hgetall t k' = s.hgetall t k' := by
  rw [Store.hgetall, Store.hgetall, live_acquired_ne s now t R tok ttl k' hfree hne]
  rw [acquireLock_of_free s now R tok ttl hfree]
  rw [show (({ s.purge ("locks:" ++ R) with
      strs := ("locks:" ++ R, tok) :: (s.purge ("locks:" ++ R)).strs
      expiries := ("locks:" ++ R, now + ttl) :: (s.purge ("locks:" ++ R)).expiries } : Store)).hashes
        = (s.purge ("locks:" ++ R)).hashes from rfl]
  rw [show (s.purge ("locks:" ++ R)).hashes = s.hashes.filter (fun kv => kv.1 ≠ "locks:" ++ R) from rfl]
  rw [find?_filter_ne _ _ _ hne]

theorem getStr_acquired_self (s : Store) (now t : Nat) (R tok : String) (ttl : Nat)
    (hfree : s.live now ("locks:" ++ R) = false) (ht : t < now + ttl) :
    ((acquireLock s now R tok ttl).2).getStr t ("locks:" ++ R) = some tok := by
  rw [acquireLock_of_free s now R tok ttl hfree]
  simp [Store.getStr, Store.live, Store.hasKeyRaw, Store.expiryOf, List.find?_cons, ht]

theorem str_ne_of_data_get (x y : String) (i : Nat)
    (h : x.data[i]? ≠ y.data[i]?) : x ≠ y :=
  fun he => h (by rw [he])

theorem key_lock_ne_ops (wsId opId : String) :
    ("locks:" ++ ("workspace_create:" ++ wsId)) ≠ ("operations:" ++ opId) := by
  apply str_ne_of_data_get _ _ 0
  have h1 : ("locks:" ++ ("workspace_create:" ++ wsId)).data[0]? = some 'l' := by
    rw [String.data_append]; rfl
  have h2 : ("operations:" ++ opId).data[0]? = some 'o' := by
    rw [String.data_append]; rfl
  rw [h1, h2]
  decide

theorem key_lock_ne_queue (wsId : String) :
    ("locks:" ++ ("workspace_create:" ++ wsId)) ≠ "workspace_operations_queue" := by
  apply str_ne_of_data_get _ _ 0
  have h1 : ("locks:" ++ ("workspace_create:" ++ wsId)).data[0]? = some 'l' := by
    rw [String.data_append]; rfl
  rw [h1]
  decide

theorem key_ws_ne_ops (wsId opId : String) :
    ("workspaces:" ++ wsId ++ ":keys") ≠ ("operations:" ++ opId) := by
  apply str_ne_of_data_get _ _ 0
  have h1 : ("workspaces:" ++ wsId ++ ":keys").data[0]? = some 'w' := by
    rw [String.data_append, String.data_append]; rfl
  have h2 : ("operations:" ++ opId).data[0]? = some 'o' := by
    rw [String.data_append]; rfl
  rw [h1, h2]
  decide

theorem key_ws_ne_queue (wsId : String) :
    ("workspaces:" ++ wsId ++ ":keys") ≠ "workspace_operations_queue" := by
  apply str_ne_of_data_get _ _ 9
  have h1 : ("workspaces:" ++ wsId ++ ":keys").data[9]? = some 's' := by
    rw [String.data_append, String.data_append]; rfl
  rw [h1]
  decide

theorem key_ws_ne_lock (wsId wsId2 : String) :
    ("workspaces:" ++ wsId ++ ":keys") ≠ ("locks:" ++ ("workspace_create:" ++ wsId2)) := by
  apply str_ne_of_data_get _ _ 0
  have h1 : ("workspaces:" ++ wsId ++ ":keys").data[0]? = some 'w' := by
    rw [String.data_append, String.data_append]; rfl
  have h2 : ("locks:" ++ ("workspace_create:" ++ wsId2)).data[0]? = some 'l' := by
    rw [String.data_append]; rfl
  rw [h1, h2]
  decide

theorem processCreateOperation_of_free (s : Store) (now : Nat) (wsId opId tokA tokB : String)
    (data : Rec) (hfree : s.live now ("locks:" ++ ("workspace_create:" ++ wsId)) = false) :
    processCreateOperation s now wsId opId data tokA tokB
      = processCreateBody ((acquireLock s now ("workspace_create:" ++ wsId) tokA 10).2)
          now wsId opId data tokA := by
  simp only [processCreateOperation]
  rw [show (acquireLock s now ("workspace_create:" ++ wsId) tokA 10).1 = some tokA by
    rw [acquireLock_of_free _ _ _ _ _ hfree]]

theorem processCreateBody_existing (s : Store) (now : Nat) (wsId opId lv : String) (data : Rec)
    (hex : s.hgetall now ("workspaces:" ++ wsId ++ ":keys") ≠ [])
    (hlock : s.getStr now ("locks:" ++ ("workspace_create:" ++ wsId)) = some lv) :
    processCreateBody s now wsId opId data lv
      = (.ok (setKey (s.hgetall now ("workspaces:" ++ wsId ++ ":keys")) "id" wsId),
         s.purge ("locks:" ++ ("workspace_create:" ++ wsId))) := by
  simp only [processCreateBody]
  rw [if_pos hex, releaseLock_of_owner _ _ _ _ hlock]

theorem processCreateBody_fresh (s : Store) (now : Nat) (wsId opId lv : String) (data : Rec)
    (hex : s.hgetall now ("workspaces:" ++ wsId ++ ":keys") = [])
    (hdata : toDict data ≠ [])
    (hlock : s.getStr now ("locks:" ++ ("workspace_create:" ++ wsId)) = some lv) :
    processCreateBody s now wsId opId data lv
      = (.ok (setKey (toDict data) "id" wsId),
         ((s.hset now ("workspaces:" ++ wsId ++ ":keys") data).hset now
             ("operations:" ++ opId) [("status", "completed")]).purge
           ("locks:" ++ ("workspace_create:" ++ wsId))) := by
  have hstored : (s.hset now ("workspaces:" ++ wsId ++ ":keys") data).hgetall now
      ("workspaces:" ++ wsId ++ ":keys") = toDict data := by
    rw [hgetall_hset_self, hex]
    rfl
  have hLW : ("locks:" ++ ("workspace_create:" ++ wsId)) ≠ ("workspaces:" ++ wsId ++ ":keys") :=
    Ne.symm (key_ws_ne_lock wsId wsId)
  have hLA : ("locks:" ++ ("workspace_create:" ++ wsId)) ≠ ("operations:" ++ opId) :=
    key_lock_ne_ops wsId opId
  have h5 : ((s.hset now ("workspaces:" ++ wsId ++ ":keys") data).hset now
      ("operations:" ++ opId) [("status", "completed")]).getStr now
      ("locks:" ++ ("workspace_create:" ++ wsId)) = some lv := by
    rw [getStr_hset_ne _ _ _ _ _ _ hLA, getStr_hset_ne _ _ _ _ _ _ hLW]
    exact hlock
  simp only [processCreateBody]
  rw [hex]
  rw [if_neg (by simp)]
  rw [hstored, if_neg hdata, releaseLock_of_owner _ _ _ _ h5]

theorem createWorkspace_eval (s : Store) (now : Nat) (wsId opId ts tokA tokB : String)
    (data : Rec)
    (hfree : s.live now ("locks:" ++ ("workspace_create:" ++ wsId)) = false)
    (hok : s.hgetall now ("workspaces:" ++ wsId ++ ":keys") = [] → toDict data ≠ []) :
    createWorkspaceDistributed s now wsId data opId ts tokA tokB
        = (.ok (setKey (if s.hgetall now ("workspaces:" ++ wsId ++ ":keys") = []
            then toDict data else s.hgetall now ("workspaces:" ++ wsId ++ ":keys")) "id" wsId),
          (createWorkspaceDistributed s now wsId data opId ts tokA tokB).2)
      ∧ (createWorkspaceDistributed s now wsId data opId ts tokA tokB).2.hgetall now
          ("workspaces:" ++ wsId ++ ":keys")
          = (if s.hgetall now ("workspaces:" ++ wsId ++ ":keys") = []
            then toDict data else s.hgetall now ("workspaces:" ++ wsId ++ ":keys"))
      ∧ (createWorkspaceDistributed s now wsId data opId ts tokA tokB).2.live now
          ("locks:" ++ ("workspace_create:" ++ wsId)) = false := by
  have hLA := key_lock_ne_ops wsId opId
  have hLQ := key_lock_ne_queue wsId
  have hWA := key_ws_ne_ops wsId opId
  have hWQ := key_ws_ne_queue wsId
  have hWL := key_ws_ne_lock wsId wsId
  have h0L : (queueOperation s now opId "create" wsId data ts).live now
      ("locks:" ++ ("workspace_create:" ++ wsId)) = false := by
    simp only [queueOperation]
    rw [live_lpush_ne _ _ _ _ _ _ hLQ, live_expireKey_ne _ _ _ _ _ _ hLA,
      live_hset_ne _ _ _ _ _ _ hLA]
    exact hfree
  have h0W : (queueOperation s now opId "create" wsId data ts).hgetall now
      ("workspaces:" ++ wsId ++ ":keys") = s.hgetall now ("workspaces:" ++ wsId ++ ":keys") := by
    simp only [queueOperation]
    rw [hgetall_lpush_ne _ _ _ _ _ _ hWQ, hgetall_expireKey_ne _ _ _ _ _ _ hWA,
      hgetall_hset_ne _ _ _ _ _ _ hWA]
  have hAW : ((acquireLock (queueOperation s now opId "create" wsId data ts) now
        ("workspace_create:" ++ wsId) tokA 10).2).hgetall now ("workspaces:" ++ wsId ++ ":keys")
      = s.hgetall now ("workspaces:" ++ wsId ++ ":keys") := by
    rw [hgetall_acquired_ne _ _ _ _ _ _ _ h0L hWL]
    exact h0W
  have hAL : ((acquireLock (queueOperation s now opId "create" wsId data ts) now
        ("workspace_create:" ++ wsId) tokA 10).2).getStr now
        ("locks:" ++ ("workspace_create:" ++ wsId)) = some tokA :=
    getStr_acquired_self _ now now _ tokA 10 h0L (by omega)
  have hmain : createWorkspaceDistributed s now wsId data opId ts tokA tokB
      = processCreateBody ((acquireLock (queueOperation s now opId "create" wsId data ts) now
          ("workspace_create:" ++ wsId) tokA 10).2) now wsId opId data tokA := by
    simp only [createWorkspaceDistributed]
    exact processCreateOperation_of_free _ now wsId opId tokA tokB data h0L
  by_cases hex : s.hgetall now ("workspaces:" ++ wsId ++ ":keys") = []
  · have hbody := processCreateBody_fresh
      ((acquireLock (queueOperation s now opId "create" wsId data ts) now
        ("workspace_create:" ++ wsId) tokA 10).2) now wsId opId tokA data
      (by rw [hAW]; exact hex) (hok hex) hAL
    rw [hmain, hbody]
    refine ⟨by rw [if_pos hex], ?_, ?_⟩
    · rw [if_pos hex]
      rw [hgetall_purge_ne _ _ _ _ hWL, hgetall_hset_ne _ _ _ _ _ _ hWA, hgetall_hset_self]
      rw [hAW, hex]
      rfl
    · exact live_purge_self _ _ _
  · have hbody := processCreateBody_existing
      ((acquireLock (queueOperation s now opId "create" wsId data ts) now
        ("workspace_create:" ++ wsId) tokA 10).2) now wsId opId tokA data
      (by rw [hAW]; exact hex) hAL
    rw [hmain, hbody]
    refine ⟨by rw [if_neg hex, hAW], ?_, ?_⟩
    · rw [if_neg hex]
      rw [hgetall_purge_ne _ _ _ _ hWL]
      exact hAW
    · exact live_purge_self _ _ _

theorem published_purge (s : Store) (k : String) : (s.purge k).published = s.published := rfl

theorem published_norm (s : Store) (now : Nat) (k : String) :
    (s.norm now k).published = s.published := by
  unfold Store.norm
  split <;> rfl

theorem published_hset (s : Store) (now : Nat) (k : String) (m : Rec) :
    (s.hset now k m).published = s.published := by
  rw [show (s.hset now k m).published = (s.norm now k).published from rfl, published_norm]

theorem published_lpush (s : Store) (now : Nat) (k : String) (vs : List String) :
    (s.lpush now k vs).published = s.published := by
  rw [show (s.lpush now k vs).published = (s.norm now k).published from rfl, published_norm]

theorem published_setStr (s : Store) (now : Nat) (k v : String) :
    (s.setStr now k v).published = s.published := rfl

theorem published_publish (s : Store) (ch : String) (p : Rec) :
    (s.publish ch p).published = s.published ++ [(ch, p)] := rfl

theorem published_setJobStatus (s : Store) (now : Nat) (j st : String)
    (pr er : Option String) :
    (setJobStatus s now j st pr er).published
      = s.published ++ [("jobs:" ++ j ++ ":events",
          [("status", st)]
            ++ (match pr with | some p => [("progress", p)] | none => [])
            ++ (match er with
                | some e => if e ≠ "" then [("error", e)] else []
                | none => []))] := by
  simp only [setJobStatus]
  rw [published_publish, published_hset]

theorem trace_success (lead : Rec) (mined validated synthesized : Rec)
    (fresh created : String) :
    publishedStatuses (processLead Store.empty 0 lead (some "job-1")
      (.ok mined) (.ok validated) (.ok synthesized) fresh created).2 "job-1"
    = ["processing", "processing", "mining", "validating", "synthesizing",
       "completed", "completed"] := by
  simp [processLead, pipelineRun, publishedStatuses, channelLog,
    published_setJobStatus, published_publish, published_hset, published_lpush,
    published_setStr, Store.empty, lookupKey]

theorem trace_mine_fail (lead : Rec) (m : String) (valO synO : StageOutcome)
    (fresh created : String) :
    publishedStatuses (processLead Store.empty 0 lead (some "job-1")
      (.fail m) valO synO fresh created).2 "job-1"
    = ["processing", "processing", "mining", "failed", "failed"] := by
  simp [processLead, pipelineRun, publishedStatuses, channelLog,
    published_setJobStatus, published_publish, published_hset, published_lpush,
    published_setStr, Store.empty, lookupKey]

theorem trace_validate_fail (lead : Rec) (mined : Rec) (m : String) (synO : StageOutcome)
    (fresh created : String) :
    publishedStatuses (processLead Store.empty 0 lead (some "job-1")
      (.ok mined) (.fail m) synO fresh created).2 "job-1"
    = ["processing", "processing", "mining", "validating", "failed", "failed"] := by
  simp [processLead, pipelineRun, publishedStatuses, channelLog,
    published_setJobStatus, published_publish, published_hset, published_lpush,
    published_setStr, Store.empty, lookupKey]

theorem trace_synthesize_fail (lead : Rec) (mined validated : Rec) (m : String)
    (fresh created : String) :
    publishedStatuses (processLead Store.empty 0 lead (some "job-1")
      (.ok mined) (.ok validated) (.fail m) fresh created).2 "job-1"
    = ["processing", "processing", "mining", "validating", "synthesizing",
       "failed", "failed"] := by
  simp [processLead, pipelineRun, publishedStatuses, channelLog,
    published_setJobStatus, published_publish, published_hset, published_lpush,
    published_setStr, Store.empty, lookupKey]

theorem streamForward_ends_iff (msgs : List Rec) :
    (streamForward msgs).2 = true
      ↔ ∃ m ∈ msgs, isTerminalStatus (lookupKey m "status") = true := by
  induction msgs with
  | nil => simp [streamForward]
  | cons hd tl ih =>
    by_cases h : isTerminalStatus (lookupKey hd "status") = true
    · simp [streamForward, h]
    · simp only [streamForward, h, if_neg]
      simp [h, ih]

theorem key_leads_ne_job (lid : String) : ("leads:" ++ lid) ≠ ("jobs:" ++ "job-1") := by
  apply str_ne_of_data_get _ _ 0
  have h1 : ("leads:" ++ lid).data[0]? = some 'l' := by
    rw [String.data_append]; rfl
  rw [h1]
  decide

theorem append_ne_empty_left (p m : String) (hp : p.length ≠ 0) : p ++ m ≠ "" := by
  intro h
  have hl := congrArg String.length h
  rw [String.length_append] at hl
  simp at hl
  exact hp hl.1

theorem hgetall_setJobStatus_ne (s : Store) (now t : Nat) (j k' : String)
    (st : String) (pr er : Option String) (hne : k' ≠ "jobs:" ++ j) :
    (setJobStatus s now j st pr er).hgetall t k' = s.hgetall t k' := by
  simp only [setJobStatus]
  rw [hgetall_publish, hgetall_hset_ne _ _ _ _ _ _ hne]

theorem getStr_setJobStatus_ne (s : Store) (now t : Nat) (j k' : String)
    (st : String) (pr er : Option String) (hne : k' ≠ "jobs:" ++ j) :
    (setJobStatus s now j st pr er).getStr t k' = s.getStr t k' := by
  simp only [setJobStatus]
  rw [getStr_publish, getStr_hset_ne _ _ _ _ _ _ hne]

theorem synthFailRun_store (m : String) (mined validated : Rec) :
    (synthFailRun m mined validated).2
      = setJobStatus (setJobStatus (setJobStatus (setJobStatus (setJobStatus (setJobStatus
          (setJobStatus Store.empty 0 "job-1" "processing" (some "0.1") none)
          0 "job-1" "processing" (some "0.3") none)
          0 "job-1" "mining" (some "0.1") none)
          0 "job-1" "validating" (some "0.4") none)
          0 "job-1" "synthesizing" (some "0.7") none)
          0 "job-1" "failed" none (some m))
          0 "job-1" "failed" none
          (some ("Pipeline failed for lead " ++ "unknown" ++ ": " ++ m)) := rfl

theorem synthesis_failure_no_lead_written (m : String) (mined validated : Rec)
    (lid : String) :
    (synthFailRun m mined validated).2.hgetall 0 ("leads:" ++ lid) = [] ∧
    (synthFailRun m mined validated).2.getStr 0 ("leads:" ++ lid) = none := by
  have hne := key_leads_ne_job lid
  rw [synthFailRun_store]
  constructor
  · rw [hgetall_setJobStatus_ne _ _ _ _ _ _ _ _ hne,
      hgetall_setJobStatus_ne _ _ _ _ _ _ _ _ hne,
      hgetall_setJobStatus_ne _ _ _ _ _ _ _ _ hne,
      hgetall_setJobStatus_ne _ _ _ _ _ _ _ _ hne,
      hgetall_setJobStatus_ne _ _ _ _ _ _ _ _ hne,
      hgetall_setJobStatus_ne _ _ _ _ _ _ _ _ hne,
      hgetall_setJobStatus_ne _ _ _ _ _ _ _ _ hne]
    rfl
  · rw [getStr_setJobStatus_ne _ _ _ _ _ _ _ _ hne,
      getStr_setJobStatus_ne _ _ _ _ _ _ _ _ hne,
      getStr_setJobStatus_ne _ _ _ _ _ _ _ _ hne,
      getStr_setJobStatus_ne _ _ _ _ _ _ _ _ hne,
      getStr_setJobStatus_ne _ _ _ _ _ _ _ _ hne,
      getStr_setJobStatus_ne _ _ _ _ _ _ _ _ hne,
      getStr_setJobStatus_ne _ _ _ _ _ _ _ _ hne]
    rfl

theorem hgetall_empty (t : Nat) (k : String) : Store.empty.hgetall t k = [] := rfl

theorem hgetall_setJobStatus_self (s : Store) (now : Nat) (j st : String)
    (pr er : Option String) :
    (setJobStatus s now j st pr er).hgetall now ("jobs:" ++ j)
      = mergeRec (s.hgetall now ("jobs:" ++ j))
          ([("status", st)]
            ++ (match pr with | some p => [("progress", p)] | none => [])
            ++ (match er with
                | some e => if e ≠ "" then [("error", e)] else []
                | none => [])) := by
  simp only [setJobStatus]
  rw [hgetall_publish, hgetall_hset_self]

/-!
### Claim theorems
-/

/-- C1 (Lock mutual exclusion): if `_acquire_lock(R)` returns a token
`tokA`, then any `_acquire_lock(R)` performed before the TTL expires (and
before a release) returns nothing and leaves the store unchanged, and the
single live lock under `locks:R` holds exactly `tokA` — acquisition is one
atomic set-if-absent-with-expiry write. -/
theorem lock_mutual_exclusion (s s' : Store) (now t1 ttl ttl2 : Nat) (R tokA tokB : String)
    (hacq : acquireLock s now R tokA ttl = (some tokA, s'))
    (hlt : t1 < now + ttl) :
    acquireLock s' t1 R tokB ttl2 = (none, s') ∧ heldLockToken s' t1 R = some tokA := by
  by_cases hlive : s.live now ("locks:" ++ R) = true
  · simp [acquireLock, Store.setNxEx, hlive] at hacq
  · simp [acquireLock, Store.setNxEx, hlive] at hacq
    subst hacq
    constructor
    · simp [acquireLock, Store.setNxEx, Store.live, Store.hasKeyRaw, Store.expiryOf, hlt]
    · simp [heldLockToken, Store.getStr, Store.live, Store.hasKeyRaw, Store.expiryOf, hlt]

/-- Witness for C1: a concrete acquire at time 0 with TTL 10 blocks a
second acquire at time 5 and is the unique live holder. -/
theorem lock_mutual_exclusion_witness :
    acquireLock (acquireLock Store.empty 0 "r" "a" 10).2 5 "r" "b" 10
        = (none, (acquireLock Store.empty 0 "r" "a" 10).2)
      ∧ heldLockToken (acquireLock Store.empty 0 "r" "a" 10).2 5 "r" = some "a" :=
  lock_mutual_exclusion Store.empty _ 0 5 10 10 "r" "a" "b" (by decide) (by decide)

/-- C2 (Lock release honors ownership): `_release_lock(R, T)` deletes the
lock key iff the stored value equals `T` (one atomic check-and-delete);
in particular, when the lock is held under a different token `T2`,
`_release_lock(R, T)` returns false, leaves the store unchanged, and
leaves `T2`'s lock in place. -/
theorem lock_release_ownership (s : Store) (now : Nat) (R T T2 : String)
    (hheld : heldLockToken s now R = some T2) (hne : T ≠ T2) :
    (∀ s'' : Store, ∀ t : Nat,
        (((releaseLock s'' t R T).1 = true ↔ heldLockToken s'' t R = some T) ∧
          (heldLockToken s'' t R = some T →
            (releaseLock s'' t R T).2 = s''.purge ("locks:" ++ R)))) ∧
    releaseLock s now R T = (false, s) ∧
    heldLockToken (releaseLock s now R T).2 now R = some T2 := by
  have hgen : ∀ s'' : Store, ∀ t : Nat,
      (((releaseLock s'' t R T).1 = true ↔ heldLockToken s'' t R = some T) ∧
        (heldLockToken s'' t R = some T →
          (releaseLock s'' t R T).2 = s''.purge ("locks:" ++ R))) := by
    intro s'' t
    by_cases h : s''.getStr t ("locks:" ++ R) = some T
    · simp [releaseLock, Store.evalCheckAndDelete, heldLockToken, h]
    · simp [releaseLock, Store.evalCheckAndDelete, heldLockToken, h]
  refine ⟨hgen, ?_, ?_⟩
  · have h : ¬ s.getStr now ("locks:" ++ R) = some T := by
      rw [show s.getStr now ("locks:" ++ R) = some T2 from hheld]
      simp only [Option.some.injEq]
      exact fun h => hne h.symm
    simp [releaseLock, Store.evalCheckAndDelete, h]
  · have h : ¬ s.getStr now ("locks:" ++ R) = some T := by
      rw [show s.getStr now ("locks:" ++ R) = some T2 from hheld]
      simp only [Option.some.injEq]
      exact fun h => hne h.symm
    simp [releaseLock, Store.evalCheckAndDelete, h, heldLockToken]
    exact hheld

/-- Witness for C2: releasing with the wrong token against a lock held
under `"b2"` fails and leaves `"b2"`'s lock in place. -/
theorem lock_release_ownership_witness :
    ((∀ s'' : Store, ∀ t : Nat,
        (((releaseLock s'' t "r" "a").1 = true ↔ heldLockToken s'' t "r" = some "a") ∧
          (heldLockToken s'' t "r" = some "a" →
            (releaseLock s'' t "r" "a").2 = s''.purge ("locks:" ++ "r")))) ∧
      releaseLock (acquireLock Store.empty 0 "r" "b2" 10).2 0 "r" "a"
          = (false, (acquireLock Store.empty 0 "r" "b2" 10).2) ∧
      heldLockToken (releaseLock (acquireLock Store.empty 0 "r" "b2" 10).2 0 "r" "a").2 0 "r"
          = some "b2") :=
  lock_release_ownership (acquireLock Store.empty 0 "r" "b2" 10).2 0 "r" "a" "b2"
    (by decide) (by decide)

/-- Counterexample to C3 as stated: with an empty field map, the first
`create_workspace` call already raises (`hset` on an empty mapping stores
nothing, so the post-write verification read comes back empty), so the
claim "raises no error" fails for the empty field map. -/
theorem create_empty_fields_counterexample :
    (createWorkspaceDistributed Store.empty 0 "w1" [] "op1" "t1" "a1" "b1").1
      = .error "Workspace data not found after storage" := rfl

/-- C3 (Idempotent create), amended to nonempty field maps: calling
`create_workspace_distributed(id, fields)` twice in sequence (create lock
free, `fields` nonempty) returns the same stored record both times, raises
no error, and leaves exactly one unchanged, non-empty record under
`workspaces:{id}:keys` — the second call returns the existing record. -/
theorem create_workspace_idempotent (s : Store) (now : Nat)
    (wsId op1 ts1 a1 b1 op2 ts2 a2 b2 : String) (data : Rec)
    (hfree : s.live now ("locks:" ++ ("workspace_create:" ++ wsId)) = false)
    (hdata : toDict data ≠ []) :
    ∃ r : Rec,
      (createWorkspaceDistributed s now wsId data op1 ts1 a1 b1).1 = .ok r ∧
      (createWorkspaceDistributed
          (createWorkspaceDistributed s now wsId data op1 ts1 a1 b1).2
          now wsId data op2 ts2 a2 b2).1 = .ok r ∧
      (createWorkspaceDistributed (createWorkspaceDistributed s now wsId data op1 ts1 a1 b1).2
          now wsId data op2 ts2 a2 b2).2.hgetall now ("workspaces:" ++ wsId ++ ":keys")
        = (createWorkspaceDistributed s now wsId data op1 ts1 a1 b1).2.hgetall now
            ("workspaces:" ++ wsId ++ ":keys") ∧
      (createWorkspaceDistributed s now wsId data op1 ts1 a1 b1).2.hgetall now
          ("workspaces:" ++ wsId ++ ":keys") ≠ [] := by
  obtain ⟨h1, h1W, h1L⟩ :=
    createWorkspace_eval s now wsId op1 ts1 a1 b1 data hfree (fun _ => hdata)
  have h1fst := congrArg Prod.fst h1
  simp only [] at h1fst
  have hne1 : (createWorkspaceDistributed s now wsId data op1 ts1 a1 b1).2.hgetall now
      ("workspaces:" ++ wsId ++ ":keys") ≠ [] := by
    rw [h1W]
    by_cases hex : s.hgetall now ("workspaces:" ++ wsId ++ ":keys") = []
    · rw [if_pos hex]; exact hdata
    · rw [if_neg hex]; exact hex
  obtain ⟨h2, h2W, h2L⟩ :=
    createWorkspace_eval (createWorkspaceDistributed s now wsId data op1 ts1 a1 b1).2 now
      wsId op2 ts2 a2 b2 data h1L (fun h => absurd h hne1)
  have h2fst := congrArg Prod.fst h2
  simp only [] at h2fst
  refine ⟨setKey (if s.hgetall now ("workspaces:" ++ wsId ++ ":keys") = []
      then toDict data else s.hgetall now ("workspaces:" ++ wsId ++ ":keys")) "id" wsId,
    h1fst, ?_, ?_, hne1⟩
  · rw [h2fst, if_neg hne1, h1W]
  · rw [h2W, if_neg hne1]

/-- Witness for C3: creating `w1` twice with `provider=openai` from the
empty store. -/
theorem create_workspace_idempotent_witness :
    ∃ r : Rec,
      (createWorkspaceDistributed Store.empty 0 "w1" [("provider", "openai")]
          "op1" "t1" "a1" "b1").1 = .ok r ∧
      (createWorkspaceDistributed
          (createWorkspaceDistributed Store.empty 0 "w1" [("provider", "openai")]
            "op1" "t1" "a1" "b1").2
          0 "w1" [("provider", "openai")] "op2" "t2" "a2" "b2").1 = .ok r ∧
      (createWorkspaceDistributed (createWorkspaceDistributed Store.empty 0 "w1"
          [("provider", "openai")] "op1" "t1" "a1" "b1").2
          0 "w1" [("provider", "openai")] "op2" "t2" "a2" "b2").2.hgetall 0
          ("workspaces:" ++ "w1" ++ ":keys")
        = (createWorkspaceDistributed Store.empty 0 "w1" [("provider", "openai")]
            "op1" "t1" "a1" "b1").2.hgetall 0 ("workspaces:" ++ "w1" ++ ":keys") ∧
      (createWorkspaceDistributed Store.empty 0 "w1" [("provider", "openai")]
          "op1" "t1" "a1" "b1").2.hgetall 0 ("workspaces:" ++ "w1" ++ ":keys") ≠ [] :=
  create_workspace_idempotent Store.empty 0 "w1" "op1" "t1" "a1" "b1" "op2" "t2" "a2" "b2"
    [("provider", "openai")] (by decide) (by decide)

/-- Counterexample to C4 as stated: when a record already exists under
the id, `create_workspace` still succeeds (idempotent create) but the
immediately following `get_workspace` returns the pre-existing record,
which is not deep-equal to the newly supplied fields plus the id. -/
theorem create_get_round_trip_counterexample :
    (createWorkspaceDistributed (Store.empty.hset 0 ("workspaces:" ++ "w1" ++ ":keys")
        [("provider", "gemini")]) 0 "w1" [("provider", "openai")] "op1" "t1" "a1" "b1").1
      = .ok [("provider", "gemini"), ("id", "w1")] ∧
    getWorkspaceDistributed (createWorkspaceDistributed (Store.empty.hset 0
        ("workspaces:" ++ "w1" ++ ":keys") [("provider", "gemini")]) 0 "w1"
        [("provider", "openai")] "op1" "t1" "a1" "b1").2 0 "w1"
      = .ok [("provider", "gemini"), ("id", "w1")] ∧
    ([("provider", "gemini"), ("id", "w1")] : Rec)
      ≠ setKey (toDict [("provider", "openai")]) "id" "w1" :=
  ⟨rfl, rfl, by decide⟩

/-- C4 (Create/get round-trip), amended to a fresh id: when no record
exists under the id and the field map is nonempty, a successful
`create_workspace_distributed(id, fields)` followed immediately by
`get_workspace_distributed(id)` returns the record deep-equal to the
supplied fields plus the key `id` bound to the supplied id. -/
theorem create_get_round_trip (s : Store) (now : Nat) (wsId opId ts tokA tokB : String)
    (data : Rec)
    (hfree : s.live now ("locks:" ++ ("workspace_create:" ++ wsId)) = false)
    (hempty : s.hgetall now ("workspaces:" ++ wsId ++ ":keys") = [])
    (hdata : toDict data ≠ []) :
    (createWorkspaceDistributed s now wsId data opId ts tokA tokB).1
        = .ok (setKey (toDict data) "id" wsId) ∧
    getWorkspaceDistributed (createWorkspaceDistributed s now wsId data opId ts tokA tokB).2
        now wsId = .ok (setKey (toDict data) "id" wsId) := by
  obtain ⟨h1, h1W, h1L⟩ :=
    createWorkspace_eval s now wsId opId ts tokA tokB data hfree (fun _ => hdata)
  have h1fst := congrArg Prod.fst h1
  simp only [] at h1fst
  constructor
  · rw [h1fst, if_pos hempty]
  · rw [getWorkspaceDistributed, h1W, if_pos hempty, if_neg hdata]

/-- Witness for C4: create-then-get of `w1` from the empty store. -/
theorem create_get_round_trip_witness :
    (createWorkspaceDistributed Store.empty 0 "w1" [("provider", "openai")]
        "op1" "t1" "a1" "b1").1
      = .ok (setKey (toDict [("provider", "openai")]) "id" "w1") ∧
    getWorkspaceDistributed (createWorkspaceDistributed Store.empty 0 "w1"
        [("provider", "openai")] "op1" "t1" "a1" "b1").2 0 "w1"
      = .ok (setKey (toDict [("provider", "openai")]) "id" "w1") :=
  create_get_round_trip Store.empty 0 "w1" "op1" "t1" "a1" "b1" [("provider", "openai")]
    (by decide) (by decide) (by decide)

/-- C5: a fully successful run of `process_lead` (all three stages
succeed) leaves the durable `jobs:{id}` hash with progress `1.0` but with
status the string `"completed"`, not the terminal state `"complete"` that
the spec, the repository's own tests (`test_pipeline.py`,`test_api.py`)
and the stream endpoint's terminal check expect — the code contradicts
itself. -/
theorem pipeline_success_terminal_status :
    demoSuccessRun.1 = .ok [("id", "lead-1"), ("pitch", "buy")] ∧
    lookupKey (demoSuccessRun.2.hgetall 0 "jobs:job-1") "status" = some "completed" ∧
    lookupKey (demoSuccessRun.2.hgetall 0 "jobs:job-1") "progress" = some "1.0" ∧
    lookupKey (demoSuccessRun.2.hgetall 0 "jobs:job-1") "status" ≠ some "complete" :=
  ⟨rfl, by decide, by decide, by decide⟩

set_option maxRecDepth 8192 in
/-- Counterexample to C6 as stated: `enqueue` runs `process_lead` once
per lead with the same job id, so a job enqueued with two leads (the
spec's own end-to-end scenario) publishes
`queued, processing, processing, mining, validating, synthesizing,
completed, completed, processing, ...` — the per-job status sequence
contains `processing`, which lies outside the claimed enumeration
`queued < mining < validating < synthesizing < (complete | failed)`, and
it regresses from `completed` back to `processing` between leads, so it
is not non-decreasing even in the extended order of the statuses the
code actually writes. -/
theorem job_status_two_lead_counterexample :
    twoLeadRun.1 = .ok "job-1" ∧
    "processing" ∈ publishedStatuses twoLeadRun.2 "job-1" ∧
    "processing" ∉ claimStatusEnum ∧
    nondecreasingBy writtenStatusRank (publishedStatuses twoLeadRun.2 "job-1") = false :=
  ⟨rfl, by decide, by decide, by decide⟩

set_option maxRecDepth 8192 in
/-- C6 (Job status monotonicity), corrected: within one `process_lead`
invocation — the worker and pipeline processing a single lead — the
statuses written are non-decreasing in the order
`processing < mining < validating < synthesizing < (completed | failed)`
and drawn from the enumeration the code writes, for every lead and every
combination of stage outcomes. Per-job monotonicity does not hold: a job
enqueued with two leads runs `process_lead` twice with the same job id
and its status sequence regresses from `completed` back to `processing`
between leads, though it still stays within the written enumeration
(`queued`, `processing`, `mining`, `validating`, `synthesizing`,
`completed`, `failed`), where `processing` and `completed` lie outside
the spec's enumeration. -/
theorem job_status_monotonicity_corrected :
    (∀ (lead : Rec) (mineO valO synO : StageOutcome) (fresh created : String),
      nondecreasingBy writtenStatusRank
          (publishedStatuses (processLead Store.empty 0 lead (some "job-1")
            mineO valO synO fresh created).2 "job-1") = true ∧
      ∀ st ∈ publishedStatuses (processLead Store.empty 0 lead (some "job-1")
          mineO valO synO fresh created).2 "job-1", st ∈ writtenStatusEnum) ∧
    nondecreasingBy writtenStatusRank (publishedStatuses twoLeadRun.2 "job-1") = false ∧
    (∀ st ∈ publishedStatuses twoLeadRun.2 "job-1", st ∈ writtenStatusEnum) := by
  refine ⟨?_, by decide, by decide⟩
  intro lead mineO valO synO fresh created
  rcases mineO with mined | mm
  · rcases valO with validated | vm
    · rcases synO with synthesized | sm
      · rw [trace_success lead mined validated synthesized fresh created]
        exact ⟨by decide, by decide⟩
      · rw [trace_synthesize_fail lead mined validated sm fresh created]
        exact ⟨by decide, by decide⟩
    · rw [trace_validate_fail lead mined vm _ fresh created]
      exact ⟨by decide, by decide⟩
  · rw [trace_mine_fail lead mm _ _ fresh created]
    exact ⟨by decide, by decide⟩

/-- Counterexample to C7 as stated: after a successful run, the persisted
state is non-terminal for the stream's check (status `"completed"`), the
channel log is non-empty, and the observer loop has still not exited
after consuming the entire log — the `while True` loop has no iteration
or time budget, so the stream does not end. -/
theorem stream_termination_counterexample :
    (streamEvents demoSuccessRun.2 0 "job-1"
        (channelLog demoSuccessRun.2 "jobs:job-1:events")).2 = false ∧
    channelLog demoSuccessRun.2 "jobs:job-1:events" ≠ [] ∧
    demoSuccessRun.2.hgetall 0 "jobs:job-1" ≠ [] := by
  decide

/-- C7 (Stream termination), amended: the streaming observer first emits
the currently persisted job state, then forwards channel messages, and
the loop exits exactly when a status in `(complete | failed)` is observed
(in the persisted state or in a message); there is no iteration or time
budget, so with no such status in the log the loop is still running after
the whole log is consumed. -/
theorem stream_observer_amended (s : Store) (now : Nat) (j : String) (msgs : List Rec) :
    (s.hgetall now ("jobs:" ++ j) ≠ [] →
      (streamEvents s now j msgs).1.head? = some (s.hgetall now ("jobs:" ++ j))) ∧
    ((streamEvents s now j msgs).2 = true
      ↔ ((s.hgetall now ("jobs:" ++ j) ≠ [] ∧
            isTerminalStatus (lookupKey (s.hgetall now ("jobs:" ++ j)) "status") = true) ∨
          ∃ m ∈ msgs, isTerminalStatus (lookupKey m "status") = true)) := by
  by_cases hd : s.hgetall now ("jobs:" ++ j) = []
  · constructor
    · intro h
      exact absurd hd h
    · simp [streamEvents, hd, streamForward_ends_iff]
  · by_cases ht : isTerminalStatus (lookupKey (s.hgetall now ("jobs:" ++ j)) "status") = true
    · constructor
      · intro _
        simp [streamEvents, hd, ht]
      · simp [streamEvents, hd, ht]
    · constructor
      · intro _
        simp [streamEvents, hd, ht]
      · simp [streamEvents, hd, ht, streamForward_ends_iff]

/-- Witness for C7 (amended) at a concrete store and message log. -/
theorem stream_observer_amended_witness :
    ((Store.empty.hgetall 0 ("jobs:" ++ "j") ≠ [] →
      (streamEvents Store.empty 0 "j" []).1.head?
        = some (Store.empty.hgetall 0 ("jobs:" ++ "j"))) ∧
    ((streamEvents Store.empty 0 "j" []).2 = true
      ↔ ((Store.empty.hgetall 0 ("jobs:" ++ "j") ≠ [] ∧
            isTerminalStatus (lookupKey (Store.empty.hgetall 0 ("jobs:" ++ "j")) "status")
              = true) ∨
          ∃ m ∈ ([] : List Rec), isTerminalStatus (lookupKey m "status") = true))) :=
  stream_observer_amended Store.empty 0 "j" []

/-- C8 (Synthesis failure handling): for every synthesis-stage error
message and any mined/validated outputs, the failed run re-raises a
non-empty error to the caller, leaves the job record with status
`failed` and a non-empty `error` field, and writes no lead record (no
`leads:*` hash and no `leads:*` string key). -/
theorem synthesis_failure_handling (m : String) (mined validated : Rec) :
    (synthFailRun m mined validated).1
        = .error ("Pipeline failed for lead " ++ "unknown" ++ ": " ++ m) ∧
    ("Pipeline failed for lead " ++ "unknown" ++ ": " ++ m) ≠ "" ∧
    lookupKey ((synthFailRun m mined validated).2.hgetall 0 ("jobs:" ++ "job-1")) "status"
        = some "failed" ∧
    lookupKey ((synthFailRun m mined validated).2.hgetall 0 ("jobs:" ++ "job-1")) "error"
        = some ("Pipeline failed for lead " ++ "unknown" ++ ": " ++ m) ∧
    ∀ lid : String,
      (synthFailRun m mined validated).2.hgetall 0 ("leads:" ++ lid) = [] ∧
      (synthFailRun m mined validated).2.getStr 0 ("leads:" ++ lid) = none := by
  have hw : ("Pipeline failed for lead " ++ "unknown" ++ ": " ++ m) ≠ "" :=
    append_ne_empty_left _ m (by decide)
  refine ⟨rfl, hw, ?_, ?_, synthesis_failure_no_lead_written m mined validated⟩
  · rw [synthFailRun_store]
    simp only [hgetall_setJobStatus_self, hgetall_empty]
    by_cases hm : m = "" <;>
      simp [hm, hw, mergeRec, setKey, lookupKey]
  · rw [synthFailRun_store]
    simp only [hgetall_setJobStatus_self, hgetall_empty]
    by_cases hm : m = "" <;>
      simp [hm, hw, mergeRec, setKey, lookupKey]

/-- Counterexample to C9 as stated: outside the production posture a
failed connection does fall back to `FakeValkey`, but the lock manager's
set-if-absent-with-expiry call (`set` with `nx`/`ex`) raises `TypeError`
against it and the atomic check-and-delete (`eval`) raises
`AttributeError` — lock-guarded workspace create/delete cannot complete
against the fallback. -/
theorem dev_fallback_lock_ops_counterexample :
    getClientOnFailure false "connection refused"
        = .fake { store := [], lists := [], channels := [] } ∧
    acquireLockFake { store := [], lists := [], channels := [] } "workspace_create:w1" "tok" 10
        = .error "TypeError: FakeValkey.set got an unexpected keyword argument nx" ∧
    releaseLockFake { store := [], lists := [], channels := [] } "workspace_create:w1" "tok"
        = .error "AttributeError: FakeValkey object has no attribute eval" :=
  ⟨rfl, rfl, rfl⟩

/-- C9 (Development fallback), amended: the in-memory fallback supports
hash get/set (round-trip through `hset`/`hgetall`), key-pattern scan, and
basic pub/sub, but its `set` accepts no `nx`/`ex` arguments and it has no
`eval`, so the lock manager's acquire and release raise against it
instead of succeeding. -/
theorem dev_fallback_equivalence_amended (fv : FakeValkey) (name ch msg tok res : String)
    (m : Rec) (ttl : Nat) :
    (fv.hset name m).hgetall name = mergeRec (fv.hgetall name) m ∧
    name ∈ (fv.hset name m).keysPat "*" ∧
    ((({ store := [], lists := [], channels := [] } : FakeValkey).publishMsg ch msg).getMessage
        ch).1 = some msg ∧
    (∃ e, fv.setNxEx name tok ttl = .error e) ∧
    (∃ e, fv.evalScript "check-and-delete" name tok = .error e) ∧
    (∃ e, acquireLockFake fv res tok ttl = .error e) ∧
    (∃ e, releaseLockFake fv res tok = .error e) := by
  refine ⟨?_, ?_, ?_, ⟨_, rfl⟩, ⟨_, rfl⟩, ⟨_, rfl⟩, ⟨_, rfl⟩⟩
  · simp [FakeValkey.hset, FakeValkey.hgetall]
  · simp [FakeValkey.hset, FakeValkey.keysPat]
  · simp [FakeValkey.publishMsg, FakeValkey.getMessage]

/-- C10: enqueuing with an empty leads list fails with HTTP 400
"No leads provided" and leaves the store untouched — no job id is used
and no `jobs:{id}` record is written, regardless of the lead runner, the
store contents, or the workspace id. -/
theorem enqueue_empty_leads (runner : Store → Rec → Except String Rec × Store)
    (s : Store) (now : Nat) (workspaceId jobId : String) :
    enqueue runner s now [] workspaceId jobId = (.error (400, "No leads provided"), s) := by
  simp [enqueue]

end LeadEngine
